import Mathlib

/-!
# PPLDemo: a verification development

Shallow embedding of `src/plugin/plugin.m.cpp` (the plugin entry points, the
message timer and the menu action) together with the flap retractor that the
plugin links against.  The header `flapretractor.h` is not among the sources,
so the flap retractor is modelled from the specification's
"ThresholdActuator" contract; every such definition says so in its doc comment.

Floating-point values are modelled by `Flt`: exact rationals extended with the
three non-finite IEEE values.  Rounding is not modelled.
-/

namespace PPLDemo

/-! ## Floating-point values -/

/-- A C `float`/`double`: a finite value, one of the two infinities, or NaN. -/
inductive Flt where
  | nan : Flt
  | negInf : Flt
  | fin : ℚ → Flt
  | posInf : Flt
  deriving DecidableEq

namespace Flt

/-- The test `std::isfinite`. -/
def isFinite : Flt → Bool
  | fin _ => true
  | _ => false

/-- Unary minus. -/
def neg : Flt → Flt
  | nan => nan
  | negInf => posInf
  | fin q => fin (-q)
  | posInf => negInf

/-- Addition, IEEE special cases included. -/
def add : Flt → Flt → Flt
  | nan, _ => nan
  | _, nan => nan
  | negInf, posInf => nan
  | posInf, negInf => nan
  | negInf, _ => negInf
  | _, negInf => negInf
  | posInf, _ => posInf
  | _, posInf => posInf
  | fin a, fin b => fin (a + b)

/-- Subtraction. -/
def sub (a b : Flt) : Flt := add a (neg b)

/-- The comparison `a < b`; every comparison with NaN is false. -/
def lt : Flt → Flt → Bool
  | nan, _ => false
  | _, nan => false
  | negInf, negInf => false
  | negInf, _ => true
  | fin _, negInf => false
  | fin a, fin b => decide (a < b)
  | fin _, posInf => true
  | posInf, _ => false

/-- The comparison `a > b`. -/
def gt (a b : Flt) : Bool := lt b a

end Flt

/-! ## The ini store (SimpleIni, as far as the plugin uses it) -/

/-- Return code of the SimpleIni calls: negative values are failures
(`SI_FAIL = -1`, `SI_NOMEM = -2`, `SI_FILE = -3`). -/
abbrev SI_Error := Int

def SI_OK : SI_Error := 0
def SI_UPDATED : SI_Error := 1
def SI_INSERTED : SI_Error := 2
def SI_FILE : SI_Error := -3

/-- One key of the ini store with the double value kept under it.  The textual
form of the value in the file is not modelled. -/
structure IniEntry where
  a_pSection : String
  a_pKey : String
  value : Flt
  deriving DecidableEq

/-- The contents of a `CSimpleIniA` object. -/
abbrev IniStore := List IniEntry

/-- Whether the entry is the key `key` of section `sec`. -/
def IniEntry.isKey (sec key : String) (e : IniEntry) : Bool :=
  e.a_pSection == sec && e.a_pKey == key

namespace IniStore

/-- The call `ini.GetDoubleValue(section, key, default)`. -/
def GetDoubleValue (s : IniStore) (sec key : String) (dflt : Flt) : Flt :=
  match s.find? (IniEntry.isKey sec key) with
  | some e => e.value
  | none => dflt

/-- Whether the store has the key. -/
def hasKey (s : IniStore) (sec key : String) : Bool :=
  s.any (IniEntry.isKey sec key)

/-- The call `ini.SetDoubleValue(section, key, v)`: an existing key is
overwritten (`SI_UPDATED`), a new one is appended (`SI_INSERTED`). -/
def SetDoubleValue (s : IniStore) (sec key : String) (v : Flt) : SI_Error × IniStore :=
  if hasKey s sec key then
    (SI_UPDATED, s.map (fun e => if e.isKey sec key then { e with value := v } else e))
  else
    (SI_INSERTED, s ++ [{ a_pSection := sec, a_pKey := key, value := v }])

end IniStore

/-- The files written by `SaveFile`, by path: the store last saved there. -/
abbrev Disk := String → Option IniStore

/-- The call `ini.SaveFile(path)`: the file at `path` now holds the store. -/
def SaveFile (d : Disk) (path : String) (s : IniStore) : Disk :=
  fun p => if p = path then some s else d p

/-! ## Logging and the calls the plugin makes -/

/-- Log levels used by the plugin. -/
inductive Level where
  | Info | Warn | Error
  deriving DecidableEq

/-- The calls the plugin makes to its collaborators, in program order. -/
inductive Call where
  | setLogFile (path : String)
  | log (level : Level) (text : String)
  | iniLoadFile (path : String)
  | iniSetDoubleValue (sec key : String) (v : Flt)
  | iniSaveFile (path : String) (saved : IniStore)
  | hookToSim
  | unhookFromSim
  deriving DecidableEq

/-! ## The flap retractor (`flapretractor.h`, absent from the sources) -/

/-- The last commanded position of the flaps. -/
inductive ActuatorState where
  | Extended | Retracted
  deriving DecidableEq

/-- Whether the per-tick evaluation is registered with the host. -/
inductive Lifecycle where
  | Unhooked | Hooked
  deriving DecidableEq

/-- The error kinds of the specification's section 7. -/
inductive ErrorKind where
  | InvalidParameter | SensorUnavailable | ActuatorWriteFailed
  deriving DecidableEq

/-- Modelled from the spec: the class `FlapRetractor` of `flapretractor.h`,
which is not among the sources.  Its data are the specification's Threshold,
ActuatorState and hookup lifecycle. -/
structure FlapRetractor where
  threshold : Flt
  state : ActuatorState
  lifecycle : Lifecycle
  deriving DecidableEq

/-- The host scheduler, as far as the flap retractor is concerned: how many
times its per-tick evaluation is currently registered. -/
abbrev Scheduler := Nat

namespace FlapRetractor

/-- Modelled from the spec: the state of a `FlapRetractor` before its first
tick, which `flapretractor.h` would construct.  The state machine starts in
`Extended`, and nothing is registered with the host. -/
def init (threshold : Flt) : FlapRetractor :=
  { threshold := threshold, state := .Extended, lifecycle := .Unhooked }

/-- Modelled from the spec: `FlapRetractor::hookToSim` of `flapretractor.h`,
the specification's `hook()`.  It registers the per-tick evaluation with the
host scheduler and moves the lifecycle to `Hooked`; while already `Hooked` it
does nothing. -/
def hookToSim (a : FlapRetractor) (sched : Scheduler) : FlapRetractor × Scheduler :=
  match a.lifecycle with
  | .Hooked => (a, sched)
  | .Unhooked => ({ a with lifecycle := .Hooked }, sched + 1)

/-- Modelled from the spec: `FlapRetractor::unhookFromSim` of
`flapretractor.h`, the specification's `unhook()`.  It deregisters the per-tick
evaluation and moves the lifecycle to `Unhooked`; it may be called on a flap
retractor that was never hooked. -/
def unhookFromSim (a : FlapRetractor) (sched : Scheduler) : FlapRetractor × Scheduler :=
  match a.lifecycle with
  | .Hooked => ({ a with lifecycle := .Unhooked }, sched - 1)
  | .Unhooked => ({ a with lifecycle := .Unhooked }, sched)

/-- Modelled from the spec: the read half of the threshold binding that
`flapretractor.h` publishes, the specification's `getThreshold()`. -/
def getThreshold (a : FlapRetractor) : Flt := a.threshold

/-- Modelled from the spec: the write half of the threshold binding that
`flapretractor.h` publishes, the specification's `setThreshold(value)`.  A finite
value replaces the threshold; a non-finite one is rejected with
`InvalidParameter` and the threshold stays as it was. -/
def setThreshold (v : Flt) (a : FlapRetractor) : Except ErrorKind Unit × FlapRetractor :=
  if v.isFinite then (.ok (), { a with threshold := v })
  else (.error .InvalidParameter, a)

/-- What one tick receives from its two collaborators: the result of
`SensorSource.read()` and the answer `ActuatorSink.command` would give to each
commanded position. -/
structure TickInput where
  read : Except ErrorKind Flt
  command : ActuatorState → Except ErrorKind Unit

/-- What one tick produces: the flap retractor afterwards, whether a
transition occurred, the commands issued to the sink and the lines logged. -/
structure TickResult where
  actuator : FlapRetractor
  transitioned : Bool
  commands : List ActuatorState
  logged : List Level

/-- A tick that changes nothing and commands nothing. -/
def TickResult.idle (a : FlapRetractor) (logged : List Level) : TickResult :=
  { actuator := a, transitioned := false, commands := [], logged := logged }

/-- A tick that commands `target`: the recorded state advances only when the
sink accepts the command; a rejected command is logged as an error. -/
def TickResult.drive (a : FlapRetractor) (target : ActuatorState)
    (command : ActuatorState → Except ErrorKind Unit) : TickResult :=
  match command target with
  | .ok _ =>
    { actuator := { a with state := target }, transitioned := true,
      commands := [target], logged := [] }
  | .error _ =>
    { actuator := a, transitioned := false, commands := [target], logged := [.Error] }

/-- Modelled from the spec: the per-tick callback of `FlapRetractor` in
`flapretractor.h`, the specification's `evaluateTick()` with hysteresis band
`H`.  A failed sensor read skips the tick with a warning.  Otherwise
`Extended` with speed above `threshold + H` commands `Retracted`, `Retracted`
with speed below `threshold - H` commands `Extended`, and anything else leaves
the state alone and commands nothing. -/
def evaluateTick (H : Flt) (inp : TickInput) (a : FlapRetractor) : TickResult :=
  match inp.read with
  | .error _ => TickResult.idle a [.Warn]
  | .ok speed =>
    match a.state with
    | .Extended =>
      if Flt.gt speed (Flt.add a.threshold H) then TickResult.drive a .Retracted inp.command
      else TickResult.idle a []
    | .Retracted =>
      if Flt.lt speed (Flt.sub a.threshold H) then TickResult.drive a .Extended inp.command
      else TickResult.idle a []

/-- The results of a run of ticks, one per input, each tick starting from the
flap retractor the one before left. -/
def runTicks (H : Flt) : FlapRetractor → List TickInput → List TickResult
  | _, [] => []
  | a, inp :: rest =>
    let r := evaluateTick H inp a
    r :: runTicks H r.actuator rest

/-- The host scheduler's frame: the registered evaluation runs only while the
flap retractor is `Hooked`. -/
def schedulerFrame (H : Flt) (inp : TickInput) (a : FlapRetractor) : FlapRetractor :=
  match a.lifecycle with
  | .Hooked => (evaluateTick H inp a).actuator
  | .Unhooked => a

end FlapRetractor

/-! ## The message timer (`SendAMessage`) -/

/-- The arguments a `PPL::MessageWindow` is constructed with. -/
structure MessageWindow where
  width : Int
  height : Int
  title : String
  message : String
  quit_on_close : Bool
  deriving DecidableEq

/-- A `PPL::Processor`: the delay, in seconds, after which the host first calls
its callback. -/
structure Processor where
  time_to_start : Flt
  deriving DecidableEq

namespace SendAMessage

/-- The constructor `SendAMessage() : PPL::Processor(5.f)`. -/
def new : Processor := { time_to_start := .fin 5 }

/-- The method `SendAMessage::callback(float, float, int)`: it replaces the
global `msg` by a fresh message window and returns 0. -/
def callback (_elapsedSinceLastCall _elapsedSinceLastLoop : Flt) (_counter : Int)
    (_msg : Option MessageWindow) : Flt × Option MessageWindow :=
  (.fin 0,
    some { width := 500, height := 100, title := "Hello, world!",
           message := "I am a message box! Close me and you die.", quit_on_close := true })

end SendAMessage

/-- The host's bookkeeping for one flight-loop callback: the interval it is
scheduled with, where 0 means that it is not scheduled. -/
structure FlightLoop where
  interval : Flt
  deriving DecidableEq

/-- Registration of a processor with the host (`XPLMRegisterFlightLoopCallback`
with the processor's start delay). -/
def FlightLoop.register (p : Processor) : FlightLoop := { interval := p.time_to_start }

/-- The host reaches a point in time at which a scheduled callback is due: a
callback with interval 0 is not called; otherwise `SendAMessage::callback`
runs and the value it returns is the new interval.  The result carries the
number of calls made so far. -/
def FlightLoop.fire (args : Flt × Flt × Int)
    (st : FlightLoop × Option MessageWindow × Nat) : FlightLoop × Option MessageWindow × Nat :=
  if st.1.interval = .fin 0 then st
  else
    let r := SendAMessage.callback args.1 args.2.1 args.2.2 st.2.1
    ({ interval := r.1 }, r.2, st.2.2 + 1)

/-- A run of the host over the given occasions, from the registered timer. -/
def FlightLoop.run (occasions : List (Flt × Flt × Int)) : FlightLoop × Option MessageWindow × Nat :=
  occasions.foldl (fun st args => FlightLoop.fire args st) (FlightLoop.register SendAMessage.new, none, 0)

/-! ## The menu action (`Menu::Foo`) -/

/-- Access mode of a dataref. -/
inductive RWType where
  | ReadOnly | WriteOnly | ReadWrite
  deriving DecidableEq

/-- A `PPL::OwnedData<int>`: its identifier, access mode, whether it is
published, and the integer it holds. -/
structure OwnedData where
  identifier : String
  rw : RWType
  publish_in_dre : Bool
  value : Int
  deriving DecidableEq

/-- The class `Menu::Foo`; its only member is the owned integer `dr`. -/
structure Foo where
  dr : OwnedData
  deriving DecidableEq

namespace Foo

/-- The constructor `Foo() : dr("PPLDemo/foo", PPL::ReadWrite, true)`. -/
def new : Foo :=
  { dr := { identifier := "PPLDemo/foo", rw := .ReadWrite, publish_in_dre := true, value := 0 } }

/-- The method `Foo::name`. -/
def name (_f : Foo) : String := "Foo"

/-- The method `Foo::doAction`: the assignment `dr = 42`. -/
def doAction (f : Foo) : Foo := { f with dr := { f.dr with value := 42 } }

end Foo

/-! ## The plugin entry points -/

/-- The function `PluginPath::prependPlanePath`: the file name inside the
aircraft directory. -/
def prependPlanePath (planePath file : String) : String := planePath ++ file

/-- The global `IniFilename`. -/
def IniFilename (planePath : String) : String := prependPlanePath planePath "PPLDemo.ini"

/-- The global `LogFilename`. -/
def LogFilename (planePath : String) : String := prependPlanePath planePath "PPLDemo.log"

/-- The process-wide state of the plugin: the aircraft directory the file names
are built from, the global `ini`, the files on disk, the global
`flapretractor` with the host scheduler it registers with, and the calls made
so far. -/
structure Plugin where
  planePath : String
  ini : IniStore
  disk : Disk
  flapretractor : FlapRetractor
  scheduler : Scheduler
  calls : List Call

/-- What `ini.LoadFile` yields: its return code and the contents of `ini`
after the call. -/
structure LoadResult where
  iniState : SI_Error
  ini : IniStore

/-- The three output buffers of `XPluginStart`. -/
structure StartOutput where
  outName : String
  outSig : String
  outDesc : String
  deriving DecidableEq

/-- The plugin state with further calls appended to the record of calls. -/
def Plugin.record (p : Plugin) (cs : List Call) : Plugin :=
  { p with calls := p.calls ++ cs }

/-- The statements `LogWriter::getLogger().setLogFile(LogFilename)` and
`Log() << Log::Info << ...` at the top of `XPluginStart`. -/
def setUpLog (p : Plugin) : Plugin :=
  p.record [Call.setLogFile (LogFilename p.planePath),
            Call.log Level.Info "Plugin started. Hello world!"]

/-- The statement `ini.SetDoubleValue("Config", "FlapRetractSpeedKts", 80)`. -/
def seedDefault (p : Plugin) : Plugin :=
  { p with
    ini := (IniStore.SetDoubleValue p.ini "Config" "FlapRetractSpeedKts" (Flt.fin 80)).2,
    calls := p.calls ++ [Call.iniSetDoubleValue "Config" "FlapRetractSpeedKts" (Flt.fin 80)] }

/-- The statement `ini.SaveFile(IniFilename.c_str())`. -/
def saveIni (p : Plugin) : Plugin :=
  { p with
    disk := SaveFile p.disk (IniFilename p.planePath) p.ini,
    calls := p.calls ++ [Call.iniSaveFile (IniFilename p.planePath) p.ini] }

/-- The statements of `XPluginStart` under `// set up ini`, given what
`ini.LoadFile` yields. -/
def setUpIni (load : LoadResult) (p : Plugin) : Plugin :=
  let loaded : Plugin :=
    { p with ini := load.ini, calls := p.calls ++ [Call.iniLoadFile (IniFilename p.planePath)] }
  if load.iniState < 0 then
    saveIni (seedDefault (loaded.record
      [Call.log Level.Warn "Ini file not found. Will create new one with default values."]))
  else loaded

/-- The statement `flapretractor.hookToSim()`. -/
def linkUp (p : Plugin) : Plugin :=
  { p with
    flapretractor := (p.flapretractor.hookToSim p.scheduler).1,
    scheduler := (p.flapretractor.hookToSim p.scheduler).2,
    calls := p.calls ++ [Call.hookToSim] }

/-- The statement `flapretractor.unhookFromSim()`. -/
def unlink (p : Plugin) : Plugin :=
  { p with
    flapretractor := (p.flapretractor.unhookFromSim p.scheduler).1,
    scheduler := (p.flapretractor.unhookFromSim p.scheduler).2,
    calls := p.calls ++ [Call.unhookFromSim] }

/-- The entry point `XPluginStart`, given what `ini.LoadFile` yields.  It
returns the status code, the three output buffers and the plugin state. -/
def XPluginStart (load : LoadResult) (p : Plugin) : Int × StartOutput × Plugin :=
  let out : StartOutput :=
    { outName := "PPLDemo", outSig := "PPLDemo", outDesc := "Demonstrates PPL features." }
  (1, out, linkUp (setUpIni load (setUpLog p)))

/-- The entry point `XPluginStop`: log, save the ini file, unlink, log. -/
def XPluginStop (p : Plugin) : Plugin :=
  (unlink (saveIni (p.record [Call.log Level.Info "Saving settings file."]))).record
    [Call.log Level.Info "Plugin stopped."]

/-- The entry point `XPluginEnable`. -/
def XPluginEnable : Int := 1

/-- The value the file at `IniFilename` holds for `Config/FlapRetractSpeedKts`,
if the file exists and has the key. -/
def savedThreshold (p : Plugin) : Option Flt :=
  match p.disk (IniFilename p.planePath) with
  | none => none
  | some s =>
    if IniStore.hasKey s "Config" "FlapRetractSpeedKts" then
      some (IniStore.GetDoubleValue s "Config" "FlapRetractSpeedKts" Flt.nan)
    else none

/-! ## Facts about the ini store -/

theorem IniStore.find_after_overwrite (sec key : String) (v : Flt) (s : IniStore)
    (h : IniStore.hasKey s sec key = true) :
    ∃ e, (s.map (fun e => if e.isKey sec key then { e with value := v } else e)).find?
        (IniEntry.isKey sec key) = some e ∧ e.value = v := by
  induction s with
  | nil => simp [IniStore.hasKey] at h
  | cons x xs ih =>
    by_cases hx : x.isKey sec key = true
    · refine ⟨{ x with value := v }, ?_, rfl⟩
      have hx2 : IniEntry.isKey sec key { x with value := v } = true := by
        simpa [IniEntry.isKey] using hx
      simp [List.find?, hx, hx2]
    · have hxs : IniStore.hasKey xs sec key = true := by
        simpa [IniStore.hasKey, hx] using h
      obtain ⟨e, he, hv⟩ := ih hxs
      refine ⟨e, ?_, hv⟩
      simp only [List.map_cons, hx]
      simpa [List.find?, hx] using he

theorem IniStore.find_after_append (sec key : String) (v : Flt) (s : IniStore)
    (h : IniStore.hasKey s sec key = false) :
    (s ++ [IniEntry.mk sec key v]).find? (IniEntry.isKey sec key)
      = some (IniEntry.mk sec key v) := by
  induction s with
  | nil => simp [List.find?, IniEntry.isKey]
  | cons x xs ih =>
    have hx : x.isKey sec key = false := by
      simp only [IniStore.hasKey, List.any_cons, Bool.or_eq_false_iff] at h
      exact h.1
    have hxs : IniStore.hasKey xs sec key = false := by
      simp only [IniStore.hasKey, List.any_cons, Bool.or_eq_false_iff] at h
      exact h.2
    simpa [List.find?, hx] using ih hxs

theorem IniStore.set_of_hasKey (s : IniStore) (sec key : String) (v : Flt)
    (h : IniStore.hasKey s sec key = true) :
    (IniStore.SetDoubleValue s sec key v).2
      = s.map (fun e => if e.isKey sec key then { e with value := v } else e) := by
  unfold IniStore.SetDoubleValue
  rw [if_pos h]

theorem IniStore.set_of_not_hasKey (s : IniStore) (sec key : String) (v : Flt)
    (h : IniStore.hasKey s sec key = false) :
    (IniStore.SetDoubleValue s sec key v).2 = s ++ [IniEntry.mk sec key v] := by
  unfold IniStore.SetDoubleValue
  rw [if_neg (by simp [h])]

/-- After `SetDoubleValue` the key reads back as the value set, whatever the
default passed to `GetDoubleValue`. -/
theorem IniStore.get_after_set (s : IniStore) (sec key : String) (v dflt : Flt) :
    IniStore.GetDoubleValue (IniStore.SetDoubleValue s sec key v).2 sec key dflt = v := by
  by_cases h : IniStore.hasKey s sec key = true
  · obtain ⟨e, he, hv⟩ := IniStore.find_after_overwrite sec key v s h
    rw [IniStore.set_of_hasKey s sec key v h]
    unfold IniStore.GetDoubleValue
    rw [he]
    exact hv
  · have h2 : IniStore.hasKey s sec key = false := by simpa using h
    rw [IniStore.set_of_not_hasKey s sec key v h2]
    unfold IniStore.GetDoubleValue
    rw [IniStore.find_after_append sec key v s h2]

/-- After `SetDoubleValue` the store has the key. -/
theorem IniStore.hasKey_after_set (s : IniStore) (sec key : String) (v : Flt) :
    IniStore.hasKey (IniStore.SetDoubleValue s sec key v).2 sec key = true := by
  by_cases h : IniStore.hasKey s sec key = true
  · rw [IniStore.set_of_hasKey s sec key v h]
    unfold IniStore.hasKey at h ⊢
    rw [List.any_eq_true] at h ⊢
    obtain ⟨x, hx, hp⟩ := h
    refine ⟨{ x with value := v }, ?_, ?_⟩
    · exact List.mem_map.mpr ⟨x, hx, by simp [hp]⟩
    · simpa [IniEntry.isKey] using hp
  · have h2 : IniStore.hasKey s sec key = false := by simpa using h
    rw [IniStore.set_of_not_hasKey s sec key v h2]
    simp [IniStore.hasKey, IniEntry.isKey]

/-! ## Startup -/

/-- A plugin state as it stands when the host loads the plugin: nothing loaded,
nothing on disk, the flap retractor constructed with the given threshold, and
no call made yet. -/
def Plugin.fresh (planePath : String) (threshold : Flt) : Plugin :=
  { planePath := planePath, ini := [], disk := fun _ => none,
    flapretractor := FlapRetractor.init threshold, scheduler := 0, calls := [] }

/-- A failed load: `SI_FILE`, with `ini` left empty. -/
def LoadResult.notFound : LoadResult := { iniState := SI_FILE, ini := [] }

/-- A successful load of a file that holds `Config/FlapRetractSpeedKts = v`. -/
def LoadResult.found (v : Flt) : LoadResult :=
  { iniState := SI_OK, ini := [IniEntry.mk "Config" "FlapRetractSpeedKts" v] }

/-- The plugin state `XPluginStart` leaves when the load fails. -/
theorem XPluginStart_state_of_failed_load (load : LoadResult) (p : Plugin)
    (h : load.iniState < 0) :
    (XPluginStart load p).2.2 =
      { planePath := p.planePath,
        ini := (IniStore.SetDoubleValue load.ini "Config" "FlapRetractSpeedKts" (Flt.fin 80)).2,
        disk := SaveFile p.disk (IniFilename p.planePath)
          (IniStore.SetDoubleValue load.ini "Config" "FlapRetractSpeedKts" (Flt.fin 80)).2,
        flapretractor := (p.flapretractor.hookToSim p.scheduler).1,
        scheduler := (p.flapretractor.hookToSim p.scheduler).2,
        calls := p.calls ++
          [Call.setLogFile (LogFilename p.planePath),
           Call.log Level.Info "Plugin started. Hello world!",
           Call.iniLoadFile (IniFilename p.planePath),
           Call.log Level.Warn "Ini file not found. Will create new one with default values.",
           Call.iniSetDoubleValue "Config" "FlapRetractSpeedKts" (Flt.fin 80),
           Call.iniSaveFile (IniFilename p.planePath)
             (IniStore.SetDoubleValue load.ini "Config" "FlapRetractSpeedKts" (Flt.fin 80)).2,
           Call.hookToSim] } := by
  simp [XPluginStart, linkUp, setUpIni, setUpLog, saveIni, seedDefault, Plugin.record, h]

/-- The plugin state `XPluginStart` leaves when the load succeeds. -/
theorem XPluginStart_state_of_good_load (load : LoadResult) (p : Plugin)
    (h : 0 ≤ load.iniState) :
    (XPluginStart load p).2.2 =
      { planePath := p.planePath,
        ini := load.ini,
        disk := p.disk,
        flapretractor := (p.flapretractor.hookToSim p.scheduler).1,
        scheduler := (p.flapretractor.hookToSim p.scheduler).2,
        calls := p.calls ++
          [Call.setLogFile (LogFilename p.planePath),
           Call.log Level.Info "Plugin started. Hello world!",
           Call.iniLoadFile (IniFilename p.planePath),
           Call.hookToSim] } := by
  have h2 : ¬ load.iniState < 0 := not_lt.mpr h
  simp [XPluginStart, linkUp, setUpIni, setUpLog, Plugin.record, h2]

/-- The lifecycle after `hookToSim` is `Hooked`. -/
theorem FlapRetractor.hooked_after_hookToSim (a : FlapRetractor) (sched : Scheduler) :
    (a.hookToSim sched).1.lifecycle = Lifecycle.Hooked := by
  unfold FlapRetractor.hookToSim
  cases h : a.lifecycle <;> simp [h]

/-- C1: whenever `ini.LoadFile` returns a negative `SI_Error`, `XPluginStart`
sets `Config/FlapRetractSpeedKts` to the default 80 and then saves the ini
store to `IniFilename`: the store reads 80 under the key, the file at
`IniFilename` holds that store, and the calls made are, in order, the two log
set-up calls, `LoadFile`, the warning, `SetDoubleValue(Config,
FlapRetractSpeedKts, 80)`, `SaveFile(IniFilename)` and `hookToSim`. -/
theorem XPluginStart_seeds_and_saves_default (load : LoadResult) (p : Plugin)
    (h : load.iniState < 0) :
    (∀ dflt, IniStore.GetDoubleValue (XPluginStart load p).2.2.ini
        "Config" "FlapRetractSpeedKts" dflt = Flt.fin 80) ∧
    (XPluginStart load p).2.2.disk (IniFilename p.planePath)
      = some (XPluginStart load p).2.2.ini ∧
    savedThreshold (XPluginStart load p).2.2 = some (Flt.fin 80) ∧
    (XPluginStart load p).2.2.calls = p.calls ++
      [Call.setLogFile (LogFilename p.planePath),
       Call.log Level.Info "Plugin started. Hello world!",
       Call.iniLoadFile (IniFilename p.planePath),
       Call.log Level.Warn "Ini file not found. Will create new one with default values.",
       Call.iniSetDoubleValue "Config" "FlapRetractSpeedKts" (Flt.fin 80),
       Call.iniSaveFile (IniFilename p.planePath) (XPluginStart load p).2.2.ini,
       Call.hookToSim] := by
  rw [XPluginStart_state_of_failed_load load p h]
  refine ⟨fun dflt => IniStore.get_after_set _ _ _ _ _, ?_, ?_, rfl⟩
  · simp [SaveFile]
  · simp [savedThreshold, SaveFile, IniStore.get_after_set, IniStore.hasKey_after_set]

theorem XPluginStart_seeds_and_saves_default_witness :
    LoadResult.notFound.iniState < 0 ∧
    savedThreshold (XPluginStart LoadResult.notFound (Plugin.fresh "Aircraft/" (Flt.fin 80))).2.2
      = some (Flt.fin 80) :=
  ⟨by decide,
   (XPluginStart_seeds_and_saves_default LoadResult.notFound
      (Plugin.fresh "Aircraft/" (Flt.fin 80)) (by decide)).2.2.1⟩

/-- C9: whatever `ini.LoadFile` yields, `XPluginStart` returns 1, writes
"PPLDemo", "PPLDemo" and "Demonstrates PPL features." to its three output
buffers, calls `flapretractor.hookToSim` exactly once, and leaves the flap
retractor `Hooked`. -/
theorem XPluginStart_returns_one_and_hooks (load : LoadResult) (p : Plugin) :
    (XPluginStart load p).1 = 1 ∧
    (XPluginStart load p).2.1.outName = "PPLDemo" ∧
    (XPluginStart load p).2.1.outSig = "PPLDemo" ∧
    (XPluginStart load p).2.1.outDesc = "Demonstrates PPL features." ∧
    (XPluginStart load p).2.2.calls.count Call.hookToSim = p.calls.count Call.hookToSim + 1 ∧
    (XPluginStart load p).2.2.flapretractor.lifecycle = Lifecycle.Hooked := by
  refine ⟨rfl, rfl, rfl, rfl, ?_, ?_⟩
  · by_cases h : load.iniState < 0
    · rw [XPluginStart_state_of_failed_load load p h]
      simp [List.count_append, List.count_cons]
    · rw [XPluginStart_state_of_good_load load p (not_lt.mp h)]
      simp [List.count_append, List.count_cons]
  · by_cases h : load.iniState < 0
    · rw [XPluginStart_state_of_failed_load load p h]
      exact FlapRetractor.hooked_after_hookToSim _ _
    · rw [XPluginStart_state_of_good_load load p (not_lt.mp h)]
      exact FlapRetractor.hooked_after_hookToSim _ _

/-- C10: whenever `ini.LoadFile` returns a non-negative `SI_Error`,
`XPluginStart` leaves `ini` as the load left it and writes no file: the disk is
unchanged, the only calls are the two log set-up calls, `LoadFile` and
`hookToSim` (no `SetDoubleValue`, no `SaveFile`), and the value under
`Config/FlapRetractSpeedKts` is the loaded one. -/
theorem XPluginStart_keeps_loaded_ini (load : LoadResult) (p : Plugin)
    (h : 0 ≤ load.iniState) :
    (XPluginStart load p).2.2.ini = load.ini ∧
    (XPluginStart load p).2.2.disk = p.disk ∧
    (XPluginStart load p).2.2.calls = p.calls ++
      [Call.setLogFile (LogFilename p.planePath),
       Call.log Level.Info "Plugin started. Hello world!",
       Call.iniLoadFile (IniFilename p.planePath),
       Call.hookToSim] ∧
    (∀ dflt, IniStore.GetDoubleValue (XPluginStart load p).2.2.ini
        "Config" "FlapRetractSpeedKts" dflt
      = IniStore.GetDoubleValue load.ini "Config" "FlapRetractSpeedKts" dflt) := by
  rw [XPluginStart_state_of_good_load load p h]
  exact ⟨rfl, rfl, rfl, fun _ => rfl⟩

theorem XPluginStart_keeps_loaded_ini_witness :
    0 ≤ (LoadResult.found (Flt.fin 65)).iniState ∧
    (XPluginStart (LoadResult.found (Flt.fin 65)) (Plugin.fresh "Aircraft/" (Flt.fin 80))).2.2.ini
      = [IniEntry.mk "Config" "FlapRetractSpeedKts" (Flt.fin 65)] :=
  ⟨by decide,
   (XPluginStart_keeps_loaded_ini (LoadResult.found (Flt.fin 65))
      (Plugin.fresh "Aircraft/" (Flt.fin 80)) (by decide)).1⟩

/-! ## Shutdown -/

/-- What the statements of `XPluginStop` save: the file at `IniFilename` holds
`ini` as it stood when `XPluginStop` was called, and `XPluginStop` itself does
not write to `ini`. -/
theorem XPluginStop_saves_ini_as_it_stands (p : Plugin) :
    (XPluginStop p).disk (IniFilename p.planePath) = some p.ini ∧
    (XPluginStop p).ini = p.ini ∧
    (XPluginStop p).planePath = p.planePath := by
  refine ⟨?_, rfl, rfl⟩
  simp [XPluginStop, unlink, saveIni, Plugin.record, SaveFile]

/-! ## The tick -/

/-- Whether the sink accepted a command. -/
def accepted : Except ErrorKind Unit → Bool
  | .ok _ => true
  | .error _ => false

/-- A sink that accepts every command. -/
def sinkOk : ActuatorState → Except ErrorKind Unit := fun _ => .ok ()

/-- A sink that rejects every command. -/
def sinkFailing : ActuatorState → Except ErrorKind Unit :=
  fun _ => .error ErrorKind.ActuatorWriteFailed

/-- A tick on which the sensor reads `speed` and the sink answers by `command`. -/
def reading (speed : Flt) (command : ActuatorState → Except ErrorKind Unit) :
    FlapRetractor.TickInput :=
  { read := .ok speed, command := command }

/-- A flap retractor that is hooked, with the given threshold and state. -/
def hookedAt (threshold : Flt) (state : ActuatorState) : FlapRetractor :=
  { threshold := threshold, state := state, lifecycle := Lifecycle.Hooked }

theorem FlapRetractor.drive_state (a : FlapRetractor) (target : ActuatorState)
    (command : ActuatorState → Except ErrorKind Unit) :
    (FlapRetractor.TickResult.drive a target command).actuator.state
      = if accepted (command target) then target else a.state := by
  unfold FlapRetractor.TickResult.drive
  cases h : command target <;> simp [accepted]

theorem FlapRetractor.drive_rejected (a : FlapRetractor) (target : ActuatorState)
    (command : ActuatorState → Except ErrorKind Unit)
    (h : accepted (command target) = false) :
    (FlapRetractor.TickResult.drive a target command).actuator = a ∧
    (FlapRetractor.TickResult.drive a target command).transitioned = false := by
  unfold FlapRetractor.TickResult.drive
  cases hc : command target with
  | ok u => simp [hc, accepted] at h
  | error e => simp

theorem FlapRetractor.drive_frame (a : FlapRetractor) (target : ActuatorState)
    (command : ActuatorState → Except ErrorKind Unit) :
    (FlapRetractor.TickResult.drive a target command).actuator.threshold = a.threshold ∧
    (FlapRetractor.TickResult.drive a target command).actuator.lifecycle = a.lifecycle ∧
    (FlapRetractor.TickResult.drive a target command).commands = [target] := by
  unfold FlapRetractor.TickResult.drive
  cases command target <;> simp

/-- C3, as the claim states it, fails: with threshold 80, band 1.6, state
`Extended` and a measured speed of 85, which is above 81.6, a tick whose
command the sink rejects leaves the state `Extended`; so "moves to `Retracted`
exactly when the speed is above threshold + H" does not hold there. -/
theorem evaluateTick_rejected_command_keeps_state :
    ¬ ((FlapRetractor.evaluateTick (Flt.fin (8 / 5)) (reading (Flt.fin 85) sinkFailing)
          (hookedAt (Flt.fin 80) ActuatorState.Extended)).actuator.state
        = ActuatorState.Retracted
      ↔ Flt.gt (Flt.fin 85) (Flt.add (Flt.fin 80) (Flt.fin (8 / 5))) = true) := by
  have hgt : Flt.gt (Flt.fin 85) (Flt.add (Flt.fin 80) (Flt.fin (8 / 5))) = true := by
    simp only [Flt.gt, Flt.add, Flt.lt, decide_eq_true_eq]
    norm_num
  have hst : (FlapRetractor.evaluateTick (Flt.fin (8 / 5)) (reading (Flt.fin 85) sinkFailing)
      (hookedAt (Flt.fin 80) ActuatorState.Extended)).actuator.state
      = ActuatorState.Extended := by
    simp [FlapRetractor.evaluateTick, reading, hookedAt, hgt, FlapRetractor.TickResult.drive,
      sinkFailing]
  rw [hst]
  intro h
  have := h.mpr hgt
  exact absurd this (by decide)

/-- C3, amended: on a tick with a successfully read speed, `evaluateTick`
moves `Extended` to `Retracted` exactly when the speed is above threshold + H
and the sink accepts the command, and moves `Retracted` to `Extended` exactly
when the speed is below threshold - H and the sink accepts the command; in
both of these comparisons being true the command is issued, and a rejected
command leaves the flap retractor as it was.  When the comparison for the
current state is false the flap retractor is unchanged, no transition is
reported and no command is issued.  Threshold and lifecycle never change. -/
theorem evaluateTick_transitions (H speed : Flt) (inp : FlapRetractor.TickInput)
    (a : FlapRetractor) (hread : inp.read = .ok speed) :
    (a.state = ActuatorState.Extended →
      (((FlapRetractor.evaluateTick H inp a).actuator.state = ActuatorState.Retracted ↔
          (Flt.gt speed (Flt.add a.threshold H) = true ∧
            accepted (inp.command ActuatorState.Retracted) = true)) ∧
       (Flt.gt speed (Flt.add a.threshold H) = true →
          (FlapRetractor.evaluateTick H inp a).commands = [ActuatorState.Retracted] ∧
          (accepted (inp.command ActuatorState.Retracted) = false →
            (FlapRetractor.evaluateTick H inp a).actuator = a ∧
            (FlapRetractor.evaluateTick H inp a).transitioned = false)) ∧
       (Flt.gt speed (Flt.add a.threshold H) = false →
          (FlapRetractor.evaluateTick H inp a).actuator = a ∧
          (FlapRetractor.evaluateTick H inp a).transitioned = false ∧
          (FlapRetractor.evaluateTick H inp a).commands = []))) ∧
    (a.state = ActuatorState.Retracted →
      (((FlapRetractor.evaluateTick H inp a).actuator.state = ActuatorState.Extended ↔
          (Flt.lt speed (Flt.sub a.threshold H) = true ∧
            accepted (inp.command ActuatorState.Extended) = true)) ∧
       (Flt.lt speed (Flt.sub a.threshold H) = true →
          (FlapRetractor.evaluateTick H inp a).commands = [ActuatorState.Extended] ∧
          (accepted (inp.command ActuatorState.Extended) = false →
            (FlapRetractor.evaluateTick H inp a).actuator = a ∧
            (FlapRetractor.evaluateTick H inp a).transitioned = false)) ∧
       (Flt.lt speed (Flt.sub a.threshold H) = false →
          (FlapRetractor.evaluateTick H inp a).actuator = a ∧
          (FlapRetractor.evaluateTick H inp a).transitioned = false ∧
          (FlapRetractor.evaluateTick H inp a).commands = []))) ∧
    (FlapRetractor.evaluateTick H inp a).actuator.threshold = a.threshold ∧
    (FlapRetractor.evaluateTick H inp a).actuator.lifecycle = a.lifecycle := by
  refine ⟨?_, ?_, ?_, ?_⟩
  · intro hs
    refine ⟨?_, ?_, ?_⟩
    · by_cases hc : Flt.gt speed (Flt.add a.threshold H) = true
      · simp only [FlapRetractor.evaluateTick, hread, hs, hc, if_true,
          FlapRetractor.drive_state, true_and]
        cases hk : accepted (inp.command ActuatorState.Retracted) <;> simp
      · simp [FlapRetractor.evaluateTick, hread, hs, hc, FlapRetractor.TickResult.idle]
    · intro hc
      simp only [FlapRetractor.evaluateTick, hread, hs, hc, if_true]
      exact ⟨(FlapRetractor.drive_frame a _ _).2.2, FlapRetractor.drive_rejected a _ _⟩
    · intro hc
      simp [FlapRetractor.evaluateTick, hread, hs, hc, FlapRetractor.TickResult.idle]
  · intro hs
    refine ⟨?_, ?_, ?_⟩
    · by_cases hc : Flt.lt speed (Flt.sub a.threshold H) = true
      · simp only [FlapRetractor.evaluateTick, hread, hs, hc, if_true,
          FlapRetractor.drive_state, true_and]
        cases hk : accepted (inp.command ActuatorState.Extended) <;> simp
      · simp [FlapRetractor.evaluateTick, hread, hs, hc, FlapRetractor.TickResult.idle]
    · intro hc
      simp only [FlapRetractor.evaluateTick, hread, hs, hc, if_true]
      exact ⟨(FlapRetractor.drive_frame a _ _).2.2, FlapRetractor.drive_rejected a _ _⟩
    · intro hc
      simp [FlapRetractor.evaluateTick, hread, hs, hc, FlapRetractor.TickResult.idle]
  · simp only [FlapRetractor.evaluateTick, hread]
    cases a.state <;> dsimp only <;> split <;>
      simp [FlapRetractor.drive_frame, FlapRetractor.TickResult.idle]
  · simp only [FlapRetractor.evaluateTick, hread]
    cases a.state <;> dsimp only <;> split <;>
      simp [FlapRetractor.drive_frame, FlapRetractor.TickResult.idle]

theorem gt_85_of_80_band : Flt.gt (Flt.fin 85) (Flt.add (Flt.fin 80) (Flt.fin (8 / 5))) = true := by
  simp only [Flt.gt, Flt.add, Flt.lt, decide_eq_true_eq]
  norm_num

theorem evaluateTick_transitions_witness :
    (reading (Flt.fin 85) sinkOk).read = .ok (Flt.fin 85) ∧
    (hookedAt (Flt.fin 80) ActuatorState.Extended).state = ActuatorState.Extended ∧
    (FlapRetractor.evaluateTick (Flt.fin (8 / 5)) (reading (Flt.fin 85) sinkOk)
        (hookedAt (Flt.fin 80) ActuatorState.Extended)).actuator.state
      = ActuatorState.Retracted :=
  ⟨rfl, rfl,
   ((evaluateTick_transitions (Flt.fin (8 / 5)) (Flt.fin 85) (reading (Flt.fin 85) sinkOk)
      (hookedAt (Flt.fin 80) ActuatorState.Extended) rfl).1 rfl).1.mpr ⟨gt_85_of_80_band, rfl⟩⟩

/-! ## The threshold binding -/

/-- C4: `setThreshold` rejects every non-finite input: for a value that is
NaN or an infinity it signals `InvalidParameter`, `getThreshold` afterwards
returns what it returned before, and the flap retractor is unchanged. -/
theorem setThreshold_rejects_non_finite (a : FlapRetractor) (v : Flt)
    (hv : v = Flt.nan ∨ v = Flt.posInf ∨ v = Flt.negInf) :
    (a.setThreshold v).1 = .error ErrorKind.InvalidParameter ∧
    (a.setThreshold v).2.getThreshold = a.getThreshold ∧
    (a.setThreshold v).2 = a := by
  rcases hv with h | h | h <;> subst h <;>
    simp [FlapRetractor.setThreshold, Flt.isFinite]

theorem setThreshold_rejects_non_finite_witness :
    (Flt.negInf = Flt.nan ∨ Flt.negInf = Flt.posInf ∨ Flt.negInf = Flt.negInf) ∧
    ((hookedAt (Flt.fin 80) ActuatorState.Extended).setThreshold Flt.negInf).2.getThreshold
      = Flt.fin 80 :=
  ⟨Or.inr (Or.inr rfl),
   (setThreshold_rejects_non_finite (hookedAt (Flt.fin 80) ActuatorState.Extended) Flt.negInf
      (Or.inr (Or.inr rfl))).2.1⟩

/-! ## Hysteresis -/

/-- A tick from `Extended` whose reading, if any, is not above threshold + H
changes nothing. -/
theorem FlapRetractor.evaluateTick_quiet (H : Flt) (inp : FlapRetractor.TickInput)
    (a : FlapRetractor) (hs : a.state = ActuatorState.Extended)
    (hq : ∀ v, inp.read = .ok v → Flt.gt v (Flt.add a.threshold H) = false) :
    (FlapRetractor.evaluateTick H inp a).actuator = a ∧
    (FlapRetractor.evaluateTick H inp a).transitioned = false ∧
    (FlapRetractor.evaluateTick H inp a).commands = [] := by
  cases hr : inp.read with
  | error e => simp [FlapRetractor.evaluateTick, hr, FlapRetractor.TickResult.idle]
  | ok v =>
    simp [FlapRetractor.evaluateTick, hr, hs, hq v hr, FlapRetractor.TickResult.idle]

/-- A run from `Extended` in which no reading is above threshold + H: every
tick leaves the flap retractor as it started, reports no transition and issues
no command. -/
theorem FlapRetractor.runTicks_quiet (H : Flt) (inputs : List FlapRetractor.TickInput)
    (a : FlapRetractor) (hs : a.state = ActuatorState.Extended)
    (hq : ∀ inp ∈ inputs, ∀ v, inp.read = .ok v → Flt.gt v (Flt.add a.threshold H) = false) :
    ∀ r ∈ FlapRetractor.runTicks H a inputs,
      r.actuator = a ∧ r.transitioned = false ∧ r.commands = [] := by
  induction inputs with
  | nil => intro r hr; simp [FlapRetractor.runTicks] at hr
  | cons inp rest ih =>
    intro r hr
    have h1 := FlapRetractor.evaluateTick_quiet H inp a hs (hq inp (List.mem_cons_self _ _))
    simp only [FlapRetractor.runTicks, List.mem_cons] at hr
    rcases hr with hr | hr
    · rw [hr]; exact h1
    · rw [h1.1] at hr
      exact ih (fun i hi => hq i (List.mem_cons_of_mem _ hi)) r hr

/-- The run has one result per tick. -/
theorem FlapRetractor.runTicks_length (H : Flt) (inputs : List FlapRetractor.TickInput)
    (a : FlapRetractor) : (FlapRetractor.runTicks H a inputs).length = inputs.length := by
  induction inputs generalizing a with
  | nil => rfl
  | cons inp rest ih => simp [FlapRetractor.runTicks, ih]

/-- The measured speeds of `n` ticks that alternate between 79 and 81. -/
def oscillation (n : Nat) : List Flt :=
  (List.range n).map (fun i => if i % 2 = 0 then Flt.fin 79 else Flt.fin 81)

/-- C5: hysteresis prevents chatter.  From `Extended`, along every sequence of
ticks in which no measured speed is above threshold + H, each tick reports no
transition, issues no command and leaves the state `Extended`, and there is
one such result per tick.  In particular, with threshold 80 and H = 1.6, the
speeds alternating between 79 and 81 for any number of ticks, with any sink,
never cause a transition. -/
theorem hysteresis_prevents_chatter :
    (∀ (H : Flt) (a : FlapRetractor) (inputs : List FlapRetractor.TickInput),
      a.state = ActuatorState.Extended →
      (∀ inp ∈ inputs, ∀ v, inp.read = .ok v → Flt.gt v (Flt.add a.threshold H) = false) →
      (FlapRetractor.runTicks H a inputs).length = inputs.length ∧
      ∀ r ∈ FlapRetractor.runTicks H a inputs,
        r.transitioned = false ∧ r.actuator.state = ActuatorState.Extended ∧
        r.commands = []) ∧
    (∀ (n : Nat) (command : ActuatorState → Except ErrorKind Unit) (l : Lifecycle),
      (FlapRetractor.runTicks (Flt.fin (8 / 5))
          { threshold := Flt.fin 80, state := ActuatorState.Extended, lifecycle := l }
          ((oscillation n).map (fun v => reading v command))).length = n ∧
      ∀ r ∈ FlapRetractor.runTicks (Flt.fin (8 / 5))
          { threshold := Flt.fin 80, state := ActuatorState.Extended, lifecycle := l }
          ((oscillation n).map (fun v => reading v command)),
        r.transitioned = false ∧ r.actuator.state = ActuatorState.Extended ∧
        r.commands = []) := by
  constructor
  · intro H a inputs hs hq
    refine ⟨FlapRetractor.runTicks_length H inputs a, ?_⟩
    intro r hr
    obtain ⟨h1, h2, h3⟩ := FlapRetractor.runTicks_quiet H inputs a hs hq r hr
    exact ⟨h2, by rw [h1]; exact hs, h3⟩
  · intro n command l
    refine ⟨by simp [FlapRetractor.runTicks_length, oscillation], ?_⟩
    intro r hr
    have hq : ∀ inp ∈ (oscillation n).map (fun v => reading v command), ∀ v,
        inp.read = .ok v → Flt.gt v (Flt.add (Flt.fin 80) (Flt.fin (8 / 5))) = false := by
      intro inp hinp v hv
      simp only [oscillation, List.map_map, List.mem_map, List.mem_range] at hinp
      obtain ⟨i, _, hi⟩ := hinp
      subst hi
      simp only [Function.comp, reading] at hv
      injection hv with hv
      subst hv
      by_cases hp : i % 2 = 0
      · simp only [hp, if_true, Flt.gt, Flt.add, Flt.lt, decide_eq_false_iff_not]
        norm_num
      · simp only [hp, if_false, Flt.gt, Flt.add, Flt.lt, decide_eq_false_iff_not]
        norm_num
    obtain ⟨h1, h2, h3⟩ := FlapRetractor.runTicks_quiet (Flt.fin (8 / 5)) _
      { threshold := Flt.fin 80, state := ActuatorState.Extended, lifecycle := l } rfl hq r hr
    exact ⟨h2, by rw [h1], h3⟩

theorem hysteresis_prevents_chatter_witness :
    (hookedAt (Flt.fin 80) ActuatorState.Extended).state = ActuatorState.Extended ∧
    ∀ r ∈ FlapRetractor.runTicks (Flt.fin (8 / 5)) (hookedAt (Flt.fin 80) ActuatorState.Extended)
        [reading (Flt.fin 79) sinkOk, reading (Flt.fin 81) sinkOk],
      r.transitioned = false ∧ r.actuator.state = ActuatorState.Extended ∧ r.commands = [] :=
  ⟨rfl,
   (hysteresis_prevents_chatter.1 (Flt.fin (8 / 5)) (hookedAt (Flt.fin 80) ActuatorState.Extended)
      [reading (Flt.fin 79) sinkOk, reading (Flt.fin 81) sinkOk] rfl
      (by
        intro inp hinp v hv
        simp only [List.mem_cons, List.mem_singleton, List.not_mem_nil, or_false] at hinp
        rcases hinp with h | h <;> subst h <;> simp only [reading] at hv <;>
          injection hv with hv <;> subst hv <;>
          simp only [hookedAt, Flt.gt, Flt.add, Flt.lt, decide_eq_false_iff_not] <;> norm_num)).2⟩

/-! ## Hooking and unhooking -/

/-- C6: `hookToSim` and `unhookFromSim` are idempotent.  For every flap
retractor and scheduler, hooking twice leaves what hooking once leaves, with
lifecycle `Hooked`; unhooking twice leaves what unhooking once leaves, with
lifecycle `Unhooked`; and unhooking a flap retractor that was never hooked
returns it unchanged, `Unhooked`, with the scheduler untouched. -/
theorem hook_unhook_idempotent :
    (∀ (a : FlapRetractor) (sched : Scheduler),
      (a.hookToSim sched).1.hookToSim (a.hookToSim sched).2 = a.hookToSim sched ∧
      (a.hookToSim sched).1.lifecycle = Lifecycle.Hooked ∧
      ((a.hookToSim sched).1.hookToSim (a.hookToSim sched).2).1.lifecycle = Lifecycle.Hooked) ∧
    (∀ (a : FlapRetractor) (sched : Scheduler),
      (a.unhookFromSim sched).1.unhookFromSim (a.unhookFromSim sched).2 = a.unhookFromSim sched ∧
      (a.unhookFromSim sched).1.lifecycle = Lifecycle.Unhooked ∧
      ((a.unhookFromSim sched).1.unhookFromSim (a.unhookFromSim sched).2).1.lifecycle
        = Lifecycle.Unhooked) ∧
    (∀ (threshold : Flt) (sched : Scheduler),
      (FlapRetractor.init threshold).unhookFromSim sched = (FlapRetractor.init threshold, sched) ∧
      ((FlapRetractor.init threshold).unhookFromSim sched).1.lifecycle = Lifecycle.Unhooked) := by
  refine ⟨?_, ?_, ?_⟩
  · intro a sched
    obtain ⟨t, st, l⟩ := a
    cases l <;> simp [FlapRetractor.hookToSim]
  · intro a sched
    obtain ⟨t, st, l⟩ := a
    cases l <;> simp [FlapRetractor.unhookFromSim]
  · intro threshold sched
    simp [FlapRetractor.unhookFromSim, FlapRetractor.init]

/-! ## The message timer -/

/-- Once the timer is not scheduled, no occasion calls the callback again. -/
theorem FlightLoop.fire_unscheduled (occasions : List (Flt × Flt × Int))
    (w : Option MessageWindow) (n : Nat) :
    occasions.foldl (fun st args => FlightLoop.fire args st) ({ interval := Flt.fin 0 }, w, n)
      = ({ interval := Flt.fin 0 }, w, n) := by
  induction occasions with
  | nil => rfl
  | cons x xs ih =>
    rw [List.foldl_cons]
    have : FlightLoop.fire x ({ interval := Flt.fin 0 }, w, n)
        = ({ interval := Flt.fin 0 }, w, n) := by
      simp [FlightLoop.fire]
    rw [this]
    exact ih

/-- C7: the message-window timer is one-shot.  For every triple of arguments
and every prior content of `msg`, `SendAMessage::callback` leaves `msg`
holding the 500 by 100 "Hello, world!" window and returns 0; the processor is
constructed with a start delay of 5 seconds; and a host that stops scheduling
a callback which returned 0 calls it once, however many occasions follow. -/
theorem SendAMessage_is_one_shot :
    (∀ (a b : Flt) (c : Int) (msg : Option MessageWindow),
      (SendAMessage.callback a b c msg).1 = Flt.fin 0 ∧
      (SendAMessage.callback a b c msg).2 =
        some { width := 500, height := 100, title := "Hello, world!",
               message := "I am a message box! Close me and you die.",
               quit_on_close := true }) ∧
    SendAMessage.new.time_to_start = Flt.fin 5 ∧
    (∀ (occasions : List (Flt × Flt × Int)),
      (FlightLoop.run occasions).2.2 = min occasions.length 1) := by
  refine ⟨fun a b c msg => ⟨rfl, rfl⟩, rfl, ?_⟩
  intro occasions
  cases occasions with
  | nil => rfl
  | cons x xs =>
    have hfirst : FlightLoop.fire x (FlightLoop.register SendAMessage.new, none, 0)
        = ({ interval := Flt.fin 0 }, (SendAMessage.callback x.1 x.2.1 x.2.2 none).2, 1) := by
      have h5 : ¬ ((5 : ℚ) = 0) := by norm_num
      simp [FlightLoop.fire, FlightLoop.register, SendAMessage.new, SendAMessage.callback, h5]
    unfold FlightLoop.run
    rw [List.foldl_cons, hfirst, FlightLoop.fire_unscheduled]
    simp

/-! ## The menu action -/

/-- C8: for every prior value of the owned integer `PPLDemo/foo`,
`Foo::doAction` leaves it equal to 42 and changes nothing else, so running it
twice gives the same state as running it once; `Foo::name` returns "Foo"; and
the integer is constructed under the identifier `PPLDemo/foo`. -/
theorem Foo_doAction_sets_42 :
    (∀ f : Foo,
      f.doAction.dr.value = 42 ∧
      f.doAction.dr.identifier = f.dr.identifier ∧
      f.doAction.dr.rw = f.dr.rw ∧
      f.doAction.dr.publish_in_dre = f.dr.publish_in_dre ∧
      f.doAction.doAction = f.doAction ∧
      f.name = "Foo") ∧
    Foo.new.dr.identifier = "PPLDemo/foo" := by
  refine ⟨fun f => ⟨rfl, rfl, rfl, rfl, rfl, rfl⟩, rfl⟩

end PPLDemo
